import Mathlib

/-!
Verification of the content/record model of the j1032w.github.io repository.

The repository ships a typed array of project records
(`src/data/projectsData.ts`) and a set of MDX articles whose front-matter
blocks carry the article metadata (`title`, `date`, `lastmod`, `tags`,
`draft`, `summary`, `images`).  The record-store operations
(`listProjects`, `listArticles`), the load-time schema validation and the
serialization round trip are described in the specification only; they are
modelled here from the specification's words and marked as such.
-/

/-- Project record, embedded from `interface Project` in
`src/data/projectsData.ts` lines 1-6: `title` and `description` are
required strings, `href` and `imgSrc` are optional strings. -/
structure Project where
  title : String
  description : String
  href : Option String := none
  imgSrc : Option String := none
deriving Repr, DecidableEq

/-- Shipped project records, embedded from the `projectsData` array in
`src/data/projectsData.ts` lines 8-21. -/
def projectsData : List Project :=
  [ { title := "Angular Dashboard Starter",
      description := "A dashboard starter pack build with Angular 18, Nest.js 9, TypeScript 5",
      imgSrc := some "/static/images/angular-dashboard-screen.png",
      href := some "https://www.j1032.com/dashboard" },
    { title := "React.js Dashboard Starter",
      description := "ReactJS frontend and NestJS backend dashboard starter, build with React 18,  Nest.js 9, Nx monorepo, TypeScript",
      imgSrc := some "/static/images/react-dashboard-swagger-screen.png",
      href := some "https://github.com/j1032w/das-mono-nestjs-reactjs" } ]

/-- Article record: the front-matter metadata of a content document, as it
appears in each shipped MDX file (`title`, `date`, `lastmod`, `tags`,
`draft`, `summary`, `images`). -/
structure ArticleRecord where
  title : String
  date : String
  lastmod : String
  tags : List String
  draft : Bool
  summary : String
  images : List String
deriving Repr, DecidableEq

/-- Shipped article records: the front-matter blocks of the six content
documents under `src/` (the document in `src/unnamed/part_000`, the two
documents bundled alongside `src/data/projectsData.ts`, the document in
`how-useState-hook-works-internally-in-react-18.mdx`, and the two
documents bundled in
`understanding-the-virtual-dom-and-fiber-tree-in-react.mdx`). -/
def articlesData : List ArticleRecord :=
  [ { title := "Angular Ivy Engine: Efficient Rendering Without Virtual DOM Overhead",
      date := "2024-11-12",
      lastmod := "2024-11-12",
      tags := ["Angular", "Ivy"],
      draft := false,
      summary := "Delves into how Angular Ivy rendering engine optimizes application performance without relying on a virtual DOM.",
      images := [] },
    { title := "Concurrent Rendering and Lane Prioritization in React 18",
      date := "2024-08-11",
      lastmod := "2024-08-11",
      tags := ["react-js", "in-depth"],
      draft := false,
      summary := "React categorizes pending updates into 31 update lanes, each representing different priority levels. React schedules and executes these updates by enqueuing tasks into a task queue that integrates with the JavaScript event loop. It processes updates in small chunks, yielding control back to the browser every 5ms to keep the UI responsive.",
      images := [] },
    { title := "Setup DOM Break Point",
      date := "2022-11-16",
      lastmod := "2022-11-16",
      tags := ["web-development", "javascript"],
      draft := false,
      summary := "Learn how to set a DOM breakpoint in your browser to debug dynamic content changes and optimize performance.",
      images := [] },
    { title := "How `useState( )` Hook Works Internally in React 18",
      date := "2024-03-14",
      lastmod := "2024-03-14",
      tags := ["react-js", "in-depth"],
      draft := false,
      summary := "Learn how `mountState( )` and `updateState( )` manage state across renders, and why following the rules of hooks—like calling them at the top level and avoiding conditional use, avoid directly calling a component function, asynchronous nature of `setState( )`, etc —is crucial for maintaining consistent state in your components.",
      images := [] },
    { title := "Understanding the Virtual DOM and Fiber Tree in React",
      date := "2023-07-01",
      lastmod := "2023-07-01",
      tags := ["react-js"],
      draft := false,
      summary := "Explore the Virtual DOM in React, the basics of React elements, the role of JSX, and the structure of the fiber node tree.",
      images := [] },
    { title := "Event Handling in React 18",
      date := "2024-01-02",
      lastmod := "2024-01-02",
      tags := ["react-js"],
      draft := false,
      summary := "In React, events are encapsulated within synthetic events, and instead of attaching event handlers to individual HTML elements, React employs a technique known as event delegation, attaching a single event listener to the root element.",
      images := [] } ]

/-- Modelled from the spec: `listProjects()` is not implemented under
`src/` (only the data it serves is); section 4.1 of the spec states it
"returns all entries in author-defined order; no filtering, pagination, or
error conditions". -/
def listProjects (ps : List Project) : List Project := ps

/-- Modelled from the spec: `listArticles(includeDrafts)` is not
implemented under `src/`; section 4.1 of the spec states it "returns
articles, excluding those with `draft = true` unless explicitly
requested". -/
def listArticles (arts : List ArticleRecord) (includeDrafts : Bool) : List ArticleRecord :=
  if includeDrafts then arts else arts.filter (fun a => !a.draft)

/-- Modelled from the spec: the unvalidated (raw) form of a project record
as seen by the loader, before schema validation; every field may be
absent.  The loader itself is not under `src/`. -/
structure RawProject where
  title : Option String
  description : Option String
  href : Option String
  imgSrc : Option String
deriving Repr, DecidableEq

/-- Modelled from the spec: the unvalidated (raw) form of an article
front-matter block as seen by the loader; every key may be absent. -/
structure RawArticle where
  title : Option String
  date : Option String
  lastmod : Option String
  tags : Option (List String)
  draft : Option Bool
  summary : Option String
  images : Option (List String)
deriving Repr, DecidableEq

/-- Modelled from the spec: the single error kind of section 7, "raised
when a required field is missing"; it records the index of the offending
record and the name of the missing field. -/
inductive SchemaValidationError where
  | missingField (recordIndex : Nat) (field : String)
deriving Repr, DecidableEq

/-- Modelled from the spec: validation of one raw project record at index
`i`; `title` and `description` are required, `href` and `imgSrc` are
optional. -/
def validateProject (i : Nat) (r : RawProject) : Except SchemaValidationError Project :=
  match r.title with
  | none => Except.error (SchemaValidationError.missingField i "title")
  | some t =>
    match r.description with
    | none => Except.error (SchemaValidationError.missingField i "description")
    | some d => Except.ok { title := t, description := d, href := r.href, imgSrc := r.imgSrc }

/-- Modelled from the spec: eager load-time validation of a project record
set starting at record index `i`; the first malformed record aborts the
load (errors "are fatal to startup (no partial catalog is served)"). -/
def loadProjectsFrom (i : Nat) : List RawProject → Except SchemaValidationError (List Project)
  | [] => Except.ok []
  | r :: rs =>
    match validateProject i r with
    | Except.error e => Except.error e
    | Except.ok p =>
      match loadProjectsFrom (i + 1) rs with
      | Except.error e => Except.error e
      | Except.ok ps => Except.ok (p :: ps)

/-- Modelled from the spec: load and validate a whole project record set. -/
def loadProjects (rs : List RawProject) : Except SchemaValidationError (List Project) :=
  loadProjectsFrom 0 rs

/-- Modelled from the spec: validation of one raw article front-matter
block at index `i`; `title`, `date`, `lastmod`, `tags`, `draft` and
`summary` are required, `images` is optional and defaults to the empty
list. -/
def validateArticle (i : Nat) (r : RawArticle) : Except SchemaValidationError ArticleRecord :=
  match r.title with
  | none => Except.error (SchemaValidationError.missingField i "title")
  | some t =>
    match r.date with
    | none => Except.error (SchemaValidationError.missingField i "date")
    | some dt =>
      match r.lastmod with
      | none => Except.error (SchemaValidationError.missingField i "lastmod")
      | some lm =>
        match r.tags with
        | none => Except.error (SchemaValidationError.missingField i "tags")
        | some tg =>
          match r.draft with
          | none => Except.error (SchemaValidationError.missingField i "draft")
          | some df =>
            match r.summary with
            | none => Except.error (SchemaValidationError.missingField i "summary")
            | some sm =>
              Except.ok { title := t, date := dt, lastmod := lm, tags := tg,
                          draft := df, summary := sm, images := r.images.getD [] }

/-- Modelled from the spec: eager load-time validation of an article record
set starting at record index `i`. -/
def loadArticlesFrom (i : Nat) : List RawArticle → Except SchemaValidationError (List ArticleRecord)
  | [] => Except.ok []
  | r :: rs =>
    match validateArticle i r with
    | Except.error e => Except.error e
    | Except.ok a =>
      match loadArticlesFrom (i + 1) rs with
      | Except.error e => Except.error e
      | Except.ok as => Except.ok (a :: as)

/-- Modelled from the spec: load and validate a whole article record set. -/
def loadArticles (rs : List RawArticle) : Except SchemaValidationError (List ArticleRecord) :=
  loadArticlesFrom 0 rs

/-- Modelled from the spec: serialization of a project record back to its
raw key/value form (every present field is emitted). -/
def serializeProject (p : Project) : RawProject :=
  { title := some p.title, description := some p.description,
    href := p.href, imgSrc := p.imgSrc }

/-- Modelled from the spec: serialization of an article record back to its
raw front-matter key/value form. -/
def serializeArticle (a : ArticleRecord) : RawArticle :=
  { title := some a.title, date := some a.date, lastmod := some a.lastmod,
    tags := some a.tags, draft := some a.draft, summary := some a.summary,
    images := some a.images }

/-- Modelled from the spec: the Record Store, the in-memory holder of the
two static collections. -/
structure RecordStore where
  projects : List Project
  articles : List ArticleRecord
deriving Repr, DecidableEq

/-- Modelled from the spec: the `listProjects()` operation at the store
boundary, with the post-call store state made explicit. -/
def RecordStore.listProjectsOp (s : RecordStore) : List Project × RecordStore :=
  (listProjects s.projects, s)

/-- Modelled from the spec: the `listArticles(includeDrafts)` operation at
the store boundary, with the post-call store state made explicit. -/
def RecordStore.listArticlesOp (s : RecordStore) (includeDrafts : Bool) :
    List ArticleRecord × RecordStore :=
  (listArticles s.articles includeDrafts, s)

/-- Raw form of the shipped article front-matter blocks of the six
content documents under `src/`: every key (`title`, `date`, `lastmod`,
`tags`, `draft`, `summary`, `images`) is literally present in every
shipped block, so the raw blocks are exactly the full serializations of
the transcribed records. -/
def rawArticlesData : List RawArticle :=
  articlesData.map serializeArticle

/-- Spec example record `{title:"A", description:"d1"}` from section 8. -/
def exampleA : Project :=
  { title := "A", description := "d1" }

/-- Spec example record `{title:"B", description:"d2", href:"https://x"}`
from section 8. -/
def exampleB : Project :=
  { title := "B", description := "d2", href := some "https://x" }

/-- Helper: if some raw project record in the list is missing `title` or
`description`, loading from any start index fails with an error that names
an offending record (by absolute index) and its missing field. -/
theorem loadProjectsFrom_missing (rs : List RawProject) :
    ∀ i : Nat, (∃ r ∈ rs, r.title = none ∨ r.description = none) →
    ∃ j f r, loadProjectsFrom i rs = Except.error (SchemaValidationError.missingField j f) ∧
      i ≤ j ∧ rs.get? (j - i) = some r ∧
      ((f = "title" ∧ r.title = none) ∨ (f = "description" ∧ r.description = none)) := by
  induction rs with
  | nil => intro i h; simp at h
  | cons r rs ih =>
    intro i h
    by_cases ht : r.title = none
    · refine ⟨i, "title", r, ?_, le_refl i, ?_, Or.inl ⟨rfl, ht⟩⟩
      · simp [loadProjectsFrom, validateProject, ht]
      · simp
    · obtain ⟨t, htt⟩ := Option.ne_none_iff_exists'.mp ht
      by_cases hd : r.description = none
      · refine ⟨i, "description", r, ?_, le_refl i, ?_, Or.inr ⟨rfl, hd⟩⟩
        · simp [loadProjectsFrom, validateProject, htt, hd]
        · simp
      · obtain ⟨d, hdd⟩ := Option.ne_none_iff_exists'.mp hd
        have hrs : ∃ r' ∈ rs, r'.title = none ∨ r'.description = none := by
          rcases h with ⟨r', hr', hmiss⟩
          rcases List.mem_cons.mp hr' with heq | hmem
          · subst heq
            rcases hmiss with h1 | h2
            · exact absurd h1 ht
            · exact absurd h2 hd
          · exact ⟨r', hmem, hmiss⟩
        obtain ⟨j, f, r', hload, hle, hget, hid⟩ := ih (i + 1) hrs
        refine ⟨j, f, r', ?_, by omega, ?_, hid⟩
        · simp [loadProjectsFrom, validateProject, htt, hdd, hload]
        · have hji : j - i = (j - (i + 1)) + 1 := by omega
          rw [hji]
          simpa using hget

/-- Helper: loading the serialized form of a valid project record set from
any start index succeeds and reproduces the set. -/
theorem loadProjectsFrom_serialize (ps : List Project) :
    ∀ i : Nat, loadProjectsFrom i (ps.map serializeProject) = Except.ok ps := by
  induction ps with
  | nil => intro i; rfl
  | cons p ps ih =>
    intro i
    simp [loadProjectsFrom, serializeProject, validateProject, ih (i + 1)]

/-- Helper: loading the serialized form of a valid article record set from
any start index succeeds and reproduces the set. -/
theorem loadArticlesFrom_serialize (arts : List ArticleRecord) :
    ∀ i : Nat, loadArticlesFrom i (arts.map serializeArticle) = Except.ok arts := by
  induction arts with
  | nil => intro i; rfl
  | cons a arts ih =>
    intro i
    simp [loadArticlesFrom, serializeArticle, validateArticle, ih (i + 1)]

/-- Claim C1: for every valid input sequence, `listProjects` returns all
records in declared order with no filtering and no error; on the spec
example it returns exactly `[A, B]` with `A.href` unset and
`B.href = "https://x"`. -/
theorem listProjects_order_preserving (ps : List Project) :
    listProjects ps = ps ∧
    listProjects [exampleA, exampleB] = [exampleA, exampleB] ∧
    exampleA.href = none ∧ exampleB.href = some "https://x" :=
  ⟨rfl, rfl, rfl, rfl⟩

/-- Claim C2: `listArticles` with `includeDrafts = false` returns exactly
the records whose `draft` field is `false`, in declared order, and with
`includeDrafts = true` returns the full sequence including drafts. -/
theorem listArticles_draft_filtering (arts : List ArticleRecord) :
    listArticles arts false = arts.filter (fun a => a.draft = false) ∧
    (∀ a ∈ listArticles arts false, a.draft = false) ∧
    listArticles arts true = arts := by
  have hfun : (fun a : ArticleRecord => !a.draft) =
      (fun a : ArticleRecord => decide (a.draft = false)) := by
    funext a
    cases h : a.draft <;> simp [h]
  refine ⟨?_, ?_, rfl⟩
  · show arts.filter (fun a => !a.draft) = _
    rw [hfun]
  · intro a ha
    have hmem : a ∈ arts.filter (fun a => !a.draft) := ha
    simp only [List.mem_filter] at hmem
    simpa using hmem.2

/-- Claim C3: a record set containing a project record missing `title` or
`description` fails to load: the eager load returns a
`SchemaValidationError` naming the offending record index and the missing
field, and no partial catalog of the remaining records is returned. -/
theorem loadProjects_missing_field_error (rs : List RawProject)
    (h : ∃ r ∈ rs, r.title = none ∨ r.description = none) :
    ∃ j f r, loadProjects rs = Except.error (SchemaValidationError.missingField j f) ∧
      rs.get? j = some r ∧
      ((f = "title" ∧ r.title = none) ∨ (f = "description" ∧ r.description = none)) := by
  obtain ⟨j, f, r, hload, _, hget, hid⟩ := loadProjectsFrom_missing rs 0 h
  exact ⟨j, f, r, hload, by simpa using hget, hid⟩

/-- Witness for claim C3 at the concrete one-record set whose record lacks
`title`. -/
theorem loadProjects_missing_field_error_witness :
    ∃ j f r,
      loadProjects [RawProject.mk none (some "d1") none none] =
        Except.error (SchemaValidationError.missingField j f) ∧
      [RawProject.mk none (some "d1") none none].get? j = some r ∧
      ((f = "title" ∧ r.title = none) ∨ (f = "description" ∧ r.description = none)) :=
  loadProjects_missing_field_error [RawProject.mk none (some "d1") none none]
    ⟨RawProject.mk none (some "d1") none none, by simp, Or.inl rfl⟩

/-- Claim C4: schema invariant: `title` and `description` are always
present (shipped titles are non-empty), `href` and `imgSrc` are each
independently optional with no cross-field constraint (validation succeeds
for every combination of the two), and a record set with two records
sharing a title loads in insertion order (no uniqueness constraint on
`title`). -/
theorem project_schema_invariant (i : Nat) (t d : String) (h im : Option String) :
    (∀ p ∈ projectsData, p.title ≠ "") ∧
    validateProject i { title := some t, description := some d, href := h, imgSrc := im } =
      Except.ok { title := t, description := d, href := h, imgSrc := im } ∧
    loadProjects
        [ { title := some t, description := some d, href := h, imgSrc := im },
          { title := some t, description := some d, href := none, imgSrc := none } ] =
      Except.ok
        [ { title := t, description := d, href := h, imgSrc := im },
          { title := t, description := d, href := none, imgSrc := none } ] :=
  ⟨by decide, rfl, rfl⟩

/-- Claim C5: on the empty input, `listProjects` returns the empty
sequence and loading the empty record set succeeds with no error. -/
theorem listProjects_empty_ok :
    listProjects ([] : List Project) = [] ∧
    loadProjects [] = Except.ok [] :=
  ⟨rfl, rfl⟩

/-- Claim C6: no Record Store operation mutates the store: the state after
`listProjectsOp` and `listArticlesOp` is the state before, and repeating
the same call on the resulting state returns the same result. -/
theorem recordStore_read_only (s : RecordStore) (b : Bool) :
    (s.listProjectsOp).2 = s ∧
    (s.listArticlesOp b).2 = s ∧
    ((s.listProjectsOp).2.listProjectsOp).1 = (s.listProjectsOp).1 ∧
    ((s.listArticlesOp b).2.listArticlesOp b).1 = (s.listArticlesOp b).1 :=
  ⟨rfl, rfl, rfl, rfl⟩

/-- Claim C7: round trip: serializing a record set (projects and articles)
and reparsing the serialized form yields the original ordered sequence. -/
theorem serialize_then_load_roundtrip (ps : List Project) (arts : List ArticleRecord) :
    loadProjects (ps.map serializeProject) = Except.ok ps ∧
    loadArticles (arts.map serializeArticle) = Except.ok arts :=
  ⟨loadProjectsFrom_serialize ps 0, loadArticlesFrom_serialize arts 0⟩

/-- Claim C8: on the shipped data, `listProjects` returns exactly two
records, in the order "Angular Dashboard Starter" then "React.js Dashboard
Starter", and both records have `href` and `imgSrc` present and
non-empty. -/
theorem shipped_projects_exact :
    listProjects projectsData = projectsData ∧
    projectsData.map Project.title =
      ["Angular Dashboard Starter", "React.js Dashboard Starter"] ∧
    (∀ p ∈ projectsData, p.href.isSome = true ∧ p.href ≠ some "" ∧
      p.imgSrc.isSome = true ∧ p.imgSrc ≠ some "") :=
  ⟨rfl, rfl, by decide⟩

/-- Claim C9: every shipped article has `draft = false`, so on the shipped
data `listArticles` returns the same sequence whether or not drafts are
included. -/
theorem shipped_articles_published :
    (∀ a ∈ articlesData, a.draft = false) ∧
    listArticles articlesData true = listArticles articlesData false :=
  ⟨by decide, rfl⟩

/-- Claim C10: on the shipped data, schema validation succeeds and the
`SchemaValidationError` branch is unreachable: the project records load
(with non-empty `title` and `description` throughout) and the article
front-matter blocks, which carry every required field, load to the shipped
article records. -/
theorem shipped_data_validates :
    loadProjects (projectsData.map serializeProject) = Except.ok projectsData ∧
    (∀ p ∈ projectsData, p.title ≠ "" ∧ p.description ≠ "") ∧
    loadArticles rawArticlesData = Except.ok articlesData :=
  ⟨loadProjectsFrom_serialize projectsData 0, by decide,
    loadArticlesFrom_serialize articlesData 0⟩
